import Mathlib

/-!
Shallow embedding of `src/smart-crawler/browser-service/browser_service.py`
(a Flask browser-automation service with a bounded per-kind driver pool, a
domain-keyed custom-script registry, and a `/crawl` orchestration endpoint),
together with the page-discovery helpers of `BrowserUtils` and the script
registry used by `PUT /script/<domain>`.

Conventions of the embedding:
* JSON values (request bodies, responses, the dicts produced by crawl
  strategies) are modelled by the inductive `JVal`; a JSON object is a list
  of key/value pairs in dict-literal order, and Python `dict.get(k, d)` is
  `jsonGet`.
* A Selenium driver is modelled by `Session`: an opaque identity (`id`,
  drawn from a fresh-id supply `next_id` standing for process creation),
  the browser kind it was built for, and the fingerprint dict that was
  applied at construction time.  The fingerprint field records exactly the
  configuration bundle `BrowserUtils.configure_driver` received.
* Exceptions are `Except String`: a `.error` is a raised exception whose
  string is (a model of) the exception message.
* The global `driver_pools` dict (keys `chrome`/`firefox`) together with
  the fresh-id supply is `ServiceState`.
-/

/-- A JSON value, as handled by `request.json` / `jsonify`.  Objects are
key/value lists in insertion order. -/
inductive JVal where
  | jstr : String → JVal
  | jbool : Bool → JVal
  | jnum : Int → JVal
  | jnull : JVal
  | jarr : List JVal → JVal
  | jobj : List (String × JVal) → JVal

/-- Python `d.get(key, default)` on a JSON object. -/
def jsonGet (obj : List (String × JVal)) (key : String) (default : JVal) : JVal :=
  (obj.lookup key).getD default

/-- Python truthiness of a JSON value (`if v:`). -/
def jTruthy : JVal → Bool
  | .jstr s => s ≠ ""
  | .jbool b => b
  | .jnum n => n ≠ 0
  | .jnull => false
  | .jarr l => !l.isEmpty
  | .jobj l => !l.isEmpty

/-- A rough model of Python `str(v)`, used only to build diagnostic
message text (`f"Error crawling {url}: ..."` when `url` is not a string). -/
def pyStr : JVal → String
  | .jstr s => s
  | .jbool b => if b then "True" else "False"
  | .jnum n => toString n
  | .jnull => "None"
  | .jarr _ => "[...]"
  | .jobj _ => "..."

/-- A live Selenium driver.  `id` is its identity (fresh per construction),
`kind` the browser type it was created for, `fingerprint` the fingerprint
dict `configure_driver` applied when building it.  A pooled driver is
reused unchanged, so these fields never change after construction. -/
structure Session where
  id : Nat
  kind : String
  fingerprint : JVal

/-- The module-level state: the `driver_pools` dict (one idle list per
recognised browser kind, Python list order: `append` at the tail,
`pop()` from the tail) plus the fresh-id supply for driver creation. -/
structure ServiceState where
  chrome_pool : List Session
  firefox_pool : List Session
  next_id : Nat

/-- The constant `MAX_POOL_SIZE` (line 46). -/
def MAX_POOL_SIZE : Nat := 5

/-- Membership and indexing, `browser_type in driver_pools` and
`driver_pools[browser_type]`:
the pools dict has exactly the keys `chrome` and `firefox`. -/
def pools_get (s : ServiceState) (k : String) : Option (List Session) :=
  if k = "chrome" then some s.chrome_pool
  else if k = "firefox" then some s.firefox_pool
  else none

/-- Assignment `driver_pools[k] = l` for a recognised kind `k` (no-op otherwise,
matching that the dict is only written at its existing keys). -/
def pools_set (s : ServiceState) (k : String) (l : List Session) : ServiceState :=
  if k = "chrome" then { s with chrome_pool := l }
  else if k = "firefox" then { s with firefox_pool := l }
  else s

/-- Idle-pool length for kind `k` (`len(driver_pools[k])`, 0 for unknown kinds). -/
def pool_len (s : ServiceState) (k : String) : Nat :=
  ((pools_get s k).getD []).length

/-- The factory `BrowserUtils.configure_driver(browser_type, fingerprint)`
(lines 52-138): builds a fresh driver for `chrome` or `firefox`, applying
the fingerprint bundle at construction time (modelled by recording it in
the session), and raises `ValueError("Unsupported browser type: ...")`
for any other kind.  Driver construction itself is modelled as succeeding
with a fresh identity drawn from `next_id`. -/
def configure_driver (s : ServiceState) (browser_type : String) (fingerprint : JVal) :
    Except String (Session × ServiceState) :=
  if browser_type = "chrome" ∨ browser_type = "firefox" then
    .ok (⟨s.next_id, browser_type, fingerprint⟩, { s with next_id := s.next_id + 1 })
  else
    .error ("Unsupported browser type: " ++ browser_type)

/-- Acquire: `get_driver(browser_type, fingerprint)` (lines 280-288): if the pool
for the kind exists and is non-empty, `pop()` the last (most recently
appended) driver; otherwise create a new one via `configure_driver`. -/
def get_driver (s : ServiceState) (browser_type : String) (fingerprint : JVal) :
    Except String (Session × ServiceState) :=
  match pools_get s browser_type with
  | some pool =>
    match pool.getLast? with
    | some d => .ok (d, pools_set s browser_type pool.dropLast)
    | none => configure_driver s browser_type fingerprint
  | none => configure_driver s browser_type fingerprint

/-- Release: `return_driver_to_pool(browser_type, driver)` (lines 291-298): append
the driver to the idle list when the kind is recognised and the list is
below `MAX_POOL_SIZE`; otherwise `driver.quit()`.  The returned `Bool` is
true exactly when the driver was quit (disposed). -/
def return_driver_to_pool (s : ServiceState) (browser_type : String) (driver : Session) :
    ServiceState × Bool :=
  match pools_get s browser_type with
  | some pool =>
    if pool.length < MAX_POOL_SIZE then
      (pools_set s browser_type (pool ++ [driver]), false)
    else
      (s, true)
  | none => (s, true)

/-- Python `str.lower()`: per-character lower-casing. -/
def pyLower (s : String) : String :=
  String.mk (s.data.map Char.toLower)

/-- Drop everything up to and including the first `://`. -/
def dropScheme : List Char → List Char
  | ':' :: '/' :: '/' :: rest => rest
  | _ :: rest => dropScheme rest
  | [] => []

/-- Take characters up to the first path/query/fragment delimiter. -/
def takeNetloc : List Char → List Char
  | [] => []
  | c :: rest =>
    if c = '/' ∨ c = '?' ∨ c = '#' then [] else c :: takeNetloc rest

/-- Model of `urllib.parse.urlparse(url).netloc` for the scheme-bearing
URL shapes the service receives: the text between the first `://` and
the next `/`, `?` or `#` (empty when the URL has no scheme separator). -/
def netlocOf (url : String) : String :=
  String.mk (takeNetloc (dropScheme url.data))

/-- Python `s.startswith(pre)`. -/
def strStartsWith (s pre : String) : Bool :=
  go s.data pre.data
where
  go : List Char → List Char → Bool
    | _, [] => true
    | [], _ :: _ => false
    | c :: cs, p :: ps => c = p && go cs ps

/-- Python `s.strip()` restricted to common whitespace. -/
def pyStrip (s : String) : String :=
  let ws : Char → Bool := fun c => c = ' ' ∨ c = '\t' ∨ c = '\n' ∨ c = '\r'
  String.mk (((s.data.dropWhile ws).reverse.dropWhile ws).reverse)

/-- What the driver-facing phase of a `/crawl` request does once a session
has been acquired (everything from `set_page_load_timeout` through the
optional screenshot): either it completes with the strategy's result dict
and a screenshot payload, or some step raises `WebDriverException`, or
some step raises any other exception (with message and traceback text).
This is the oracle for the external browser world. -/
inductive ExecOutcome where
  | ok (result : List (String × JVal)) (shot : String)
  | webdriver (msg : String)
  | exc (msg : String) (tb : String)

/-- Outcome of one Flask request: a normal HTTP 200 JSON response, or an
exception escaping the handler (Flask then answers with an error status,
not a structured `CrawlResult`). -/
inductive HttpOutcome where
  | resp200 (body : List (String × JVal))
  | unhandled (exnType : String)

/-- The body of the `try:` block of `crawl` (lines 384-458) for a
recognised `browser_type`, together with its `except` and `finally`
clauses.  `urlv` is `data['url']`; when it is not a string,
`urlparse(url)` raises `TypeError` before any driver is acquired, the
generic `except` answers, and `finally` sees `driver` still `None`.
Otherwise a driver is acquired and the oracle decides the rest; on either
exception path `driver` was never reset to `None`, so `finally` hands the
held driver to `return_driver_to_pool`. -/
def crawl_try (s : ServiceState) (data : List (String × JVal)) (urlv : JVal)
    (browser_type : String) (exec : ExecOutcome) : HttpOutcome × ServiceState :=
  match urlv with
  | .jstr url =>
    let fingerprint := jsonGet data "fingerprint" (.jobj [])
    match get_driver s browser_type fingerprint with
    | .error e =>
      -- creation failure surfaces as an exception with no driver held;
      -- the generic except clause answers and finally has nothing to do
      (.resp200 [("success", .jbool false),
                 ("error", .jstr ("Error crawling " ++ url ++ ": " ++ e ++ "\n")),
                 ("url", .jstr url), ("title", .jstr ""), ("content", .jstr ""),
                 ("links", .jarr [])], s)
    | .ok (driver, s1) =>
      match exec with
      | .ok result shot =>
        -- screenshot if requested, then return_driver_to_pool; driver = None
        let screenshot : JVal :=
          if jTruthy (jsonGet data "take_screenshot" (.jbool false)) then .jstr shot
          else .jnull
        let s2 := (return_driver_to_pool s1 browser_type driver).1
        (.resp200 [("success", .jbool true),
                   ("url", .jstr url),
                   ("title", jsonGet result "title" (.jstr "")),
                   ("content", jsonGet result "content" (.jstr "")),
                   ("links", jsonGet result "links" (.jarr [])),
                   ("screenshot", screenshot),
                   ("metrics", jsonGet result "metrics" (.jobj []))], s2)
      | .webdriver msg =>
        let error_msg := "WebDriver error for " ++ url ++ ": " ++ msg
        -- finally: driver is still held, so it is handed back to the pool
        let s2 := (return_driver_to_pool s1 browser_type driver).1
        (.resp200 [("success", .jbool false),
                   ("error", .jstr error_msg),
                   ("url", .jstr url), ("title", .jstr ""), ("content", .jstr ""),
                   ("links", .jarr [])], s2)
      | .exc msg tb =>
        let error_msg := "Error crawling " ++ url ++ ": " ++ msg ++ "\n" ++ tb
        let s2 := (return_driver_to_pool s1 browser_type driver).1
        (.resp200 [("success", .jbool false),
                   ("error", .jstr error_msg),
                   ("url", .jstr url), ("title", .jstr ""), ("content", .jstr ""),
                   ("links", .jarr [])], s2)
  | other =>
    (.resp200 [("success", .jbool false),
               ("error", .jstr ("Error crawling " ++ pyStr other ++ ": TypeError\n")),
               ("url", other), ("title", .jstr ""), ("content", .jstr ""),
               ("links", .jarr [])], s)

/-- Endpoint `POST /crawl` (lines 369-458).  `data` is the parsed JSON object body.
`data['url']` raises `KeyError` when the key is absent;
`data.get('browser_type', 'chrome').lower()` raises `AttributeError` when
the value present is not a string; both happen before the `try:` block, so
they escape the handler.  An unrecognised kind answers immediately with
only `success` and `error`; otherwise control enters `crawl_try`. -/
def crawl_route (s : ServiceState) (data : List (String × JVal)) (exec : ExecOutcome) :
    HttpOutcome × ServiceState :=
  match data.lookup "url" with
  | none => (.unhandled "KeyError", s)
  | some urlv =>
    match jsonGet data "browser_type" (.jstr "chrome") with
    | .jstr bt0 =>
      let browser_type := (pyLower bt0)
      match pools_get s browser_type with
      | none =>
        (.resp200 [("success", .jbool false),
                   ("error", .jstr ("Unsupported browser type: " ++ browser_type))], s)
      | some _ => crawl_try s data urlv browser_type exec
    | _ => (.unhandled "AttributeError", s)

/-- Single-character `str.replace(c, r)`: every occurrence of the
character `c` becomes `r`. -/
def replaceChar (c r : Char) (s : String) : String :=
  String.mk (s.data.map (fun x => if x = c then r else x))

/-- The key normalisation applied both by `load_custom_script` (line 303)
and by `upload_script` (line 482):
`domain.replace('.', '_').replace('-', '_')`. -/
def normalize_domain (domain : String) : String :=
  replaceChar '-' '_' (replaceChar '.' '_' domain)

/-- The `SCRIPTS_DIR` directory: file stem ↦ script source text.  A write
prepends, and `store_get` finds the most recent write, which models
overwriting the file at that path. -/
structure ScriptStore where
  files : List (String × String)

/-- Does `SCRIPTS_DIR/{name}.py` exist, and what does it hold? -/
def store_get (st : ScriptStore) (name : String) : Option String :=
  st.files.lookup name

/-- Endpoint `PUT /script/<domain>` (lines 471-491).  `body` is `none` when the
request is not JSON.  `request.json.get('script')` must be truthy;
writing a non-string raises inside the inner `try`, which answers with an
error.  A truthy string body is written
to `SCRIPTS_DIR/{safe_domain}.py`, replacing any previous content. -/
def upload_script (st : ScriptStore) (domain : String)
    (body : Option (List (String × JVal))) : ScriptStore × List (String × JVal) :=
  match body with
  | none =>
    (st, [("success", .jbool false), ("error", .jstr "Expected JSON content")])
  | some data =>
    let script_content := jsonGet data "script" .jnull
    if jTruthy script_content = false then
      (st, [("success", .jbool false), ("error", .jstr "No script content provided")])
    else
      match script_content with
      | .jstr content =>
        let safe_domain := normalize_domain domain
        (⟨(safe_domain, content) :: st.files⟩,
         [("success", .jbool true),
          ("message", .jstr ("Script for " ++ domain ++ " uploaded successfully"))])
      | _ =>
        (st, [("success", .jbool false),
              ("error", .jstr "Error saving script: write() argument must be str")])

/-- Resolution: `load_custom_script(domain)` (lines 301-323).  The domain is
normalised, the backing file looked up; loading executes the module
(`execOk src = false` models `exec_module` raising, which is caught and
treated as a miss) and then checks for a `crawl` attribute
(`hasCrawl src`).  Returns the loaded script body on success, `none` on
any miss — the caller then falls back to `default_crawl`. -/
def load_custom_script (execOk hasCrawl : String → Bool) (st : ScriptStore)
    (domain : String) : Option String :=
  let d := normalize_domain domain
  match store_get st d with
  | some src =>
    if execOk src then
      if hasCrawl src then some src else none
    else none
  | none => none

/-- The Resolving step of a `/crawl` request (lines 386-405): the domain
is `urlparse(url).netloc` and the strategy actually invoked is the loaded
custom script when one resolves (else the default routine, `none` here). -/
def resolve_strategy (execOk hasCrawl : String → Bool) (st : ScriptStore)
    (url : String) : Option String :=
  load_custom_script execOk hasCrawl st (netlocOf url)

/-- A DOM element handle as Selenium exposes it.  `stale` models a handle
whose element has gone away: any property access on it
(`is_displayed`, `get_attribute`, ...) raises
`StaleElementReferenceException`. -/
structure PElem where
  stale : Bool
  displayed : Bool
  enabled : Bool
  href : Option String
  text : String
  nameAttr : Option String
  idAttr : Option String
  typeAttr : String

/-- A `<form>` element with the element lists the two inner
`find_elements` calls of `find_forms` return for it. -/
structure PForm where
  textInputs : List PElem
  submitBtns : List PElem

/-- The current page, as the `driver.find_elements` calls of the three
discovery helpers see it: anchor tags, button tags, the
`input[@type='button' or @type='submit']` hits, and forms. -/
structure Page where
  anchors : List PElem
  buttons : List PElem
  inputButtons : List PElem
  forms : List PForm

/-- One of the three element loops of `find_clickable_elements`
(lines 186-212): append each displayed-and-enabled element, and return
early (flag `true`) as soon as the accumulated list reaches
`max_elements`.  Touching a stale element raises. -/
def scan_clickable (max_elements : Nat) : List PElem → List PElem →
    Except String (List PElem × Bool)
  | [], acc => .ok (acc, false)
  | e :: rest, acc =>
    if e.stale then .error "StaleElementReferenceException"
    else if e.displayed && e.enabled then
      let acc2 := acc ++ [e]
      if max_elements ≤ acc2.length then .ok (acc2, true)
      else scan_clickable max_elements rest acc2
    else scan_clickable max_elements rest acc

/-- Discovery: `BrowserUtils.find_clickable_elements(driver, max_elements)`
(lines 186-212): scan links, then buttons, then input buttons, with the
shared early-return bound.  There is no per-element exception handling
here: a stale element aborts the whole enumeration. -/
def find_clickable_elements (page : Page) (max_elements : Nat) :
    Except String (List PElem) := do
  let (a1, early1) ← scan_clickable max_elements page.anchors []
  if early1 then return a1
  else
    let (a2, early2) ← scan_clickable max_elements page.buttons a1
    if early2 then return a2
    else
      let (a3, _) ← scan_clickable max_elements page.inputButtons a2
      return a3

/-- Python dict assignment `d[k] = v`: overwrite in place when the key
exists, append otherwise. -/
def dictInsert {α : Type} (l : List (String × α)) (k : String) (v : α) :
    List (String × α) :=
  if l.any (fun p => p.1 = k) then
    l.map (fun p => if p.1 = k then (k, v) else p)
  else l ++ [(k, v)]

/-- The text-input loop of `find_forms` (lines 222-229): for each
displayed input record `(name, (element, type))` where the name is
`get_attribute('name') or get_attribute('id') or f"input_..."`.
Touching a stale input raises. -/
def scan_inputs : List PElem → List (String × (PElem × String)) →
    Except String (List (String × (PElem × String)))
  | [], acc => .ok acc
  | inp :: rest, acc =>
    if inp.stale then .error "StaleElementReferenceException"
    else if inp.displayed then
      let input_type := inp.typeAttr
      let n1 := inp.nameAttr.getD ""
      let n2 := if n1 ≠ "" then n1 else inp.idAttr.getD ""
      let name := if n2 ≠ "" then n2 else "input_" ++ toString acc.length
      scan_inputs rest (dictInsert acc name (inp, input_type))
    else scan_inputs rest acc

/-- The submit-button loop of `find_forms` (lines 232-235): collect the
displayed buttons; touching a stale one raises. -/
def scan_submits : List PElem → List PElem → Except String (List PElem)
  | [], acc => .ok acc
  | btn :: rest, acc =>
    if btn.stale then .error "StaleElementReferenceException"
    else if btn.displayed then scan_submits rest (acc ++ [btn])
    else scan_submits rest acc

/-- The per-form record `find_forms` builds (line 237-241). -/
structure FormInfo where
  inputs : List (String × (PElem × String))
  submit_buttons : List PElem

/-- Discovery: `BrowserUtils.find_forms(driver)` (lines 214-243): one record per
form.  As in the source there is no per-element exception handling: a
stale input or submit button aborts the whole enumeration. -/
def find_forms (page : Page) : Except String (List FormInfo) :=
  go page.forms []
where
  go : List PForm → List FormInfo → Except String (List FormInfo)
    | [], acc => .ok acc
    | form :: rest, acc => do
      let inputs ← scan_inputs form.textInputs []
      let submits ← scan_submits form.submitBtns []
      go rest (acc ++ [⟨inputs, submits⟩])

/-- One extracted link of `extract_all_links`. -/
structure LinkInfo where
  url : String
  text : String
  visible : Bool

/-- The anchor loop of `extract_all_links` (lines 266-276): each anchor
is processed inside its own `try`/`except: pass`, so a stale anchor is
skipped rather than aborting; a kept anchor must have an href starting
with `http`. -/
def extract_links_scan : List PElem → List LinkInfo
  | [] => []
  | link :: rest =>
    if link.stale then extract_links_scan rest
    else
      match link.href with
      | some href =>
        if strStartsWith href "http" then
          ⟨href, pyStrip link.text, link.displayed⟩ :: extract_links_scan rest
        else extract_links_scan rest
      | none => extract_links_scan rest

/-- Discovery: `BrowserUtils.extract_all_links(driver)` (lines 262-277). -/
def extract_all_links (page : Page) : List LinkInfo :=
  extract_links_scan page.anchors

/-- A sequence of `return_driver_to_pool` calls for one kind with no
intervening acquire. -/
def release_seq (s : ServiceState) (k : String) : List Session → ServiceState
  | [] => s
  | d :: ds => release_seq (return_driver_to_pool s k d).1 k ds

/- ------------------------------------------------------------------ -/
/- Theorems                                                            -/
/- ------------------------------------------------------------------ -/

/-- A kind with an entry in `driver_pools` is `chrome` or `firefox`. -/
lemma kind_of_pools_get_isSome {s : ServiceState} {k : String}
    (h : (pools_get s k).isSome) : k = "chrome" ∨ k = "firefox" := by
  by_cases h1 : k = "chrome"
  · exact .inl h1
  · by_cases h2 : k = "firefox"
    · exact .inr h2
    · simp [pools_get, h1, h2] at h

/-- One release never pushes the idle pool above capacity. -/
lemma pool_len_release_le (s : ServiceState) (k : String) (d : Session)
    (h : pool_len s k ≤ MAX_POOL_SIZE) :
    pool_len (return_driver_to_pool s k d).1 k ≤ MAX_POOL_SIZE := by
  by_cases h1 : k = "chrome"
  · subst h1
    obtain ⟨cp, fp, n⟩ := s
    simp only [return_driver_to_pool, pools_get, pools_set, pool_len,
      MAX_POOL_SIZE, String.reduceEq, reduceIte, Option.getD_some] at *
    split_ifs with hlt
    · simp only [Option.getD_some, List.length_append, List.length_singleton]
      omega
    · simpa using h
  · by_cases h2 : k = "firefox"
    · subst h2
      obtain ⟨cp, fp, n⟩ := s
      simp only [return_driver_to_pool, pools_get, pools_set, pool_len,
        MAX_POOL_SIZE, String.reduceEq, reduceIte, Option.getD_some] at *
      split_ifs with hlt
      · simp only [Option.getD_some, List.length_append, List.length_singleton]
        omega
      · simpa using h
    · simp only [return_driver_to_pool, pools_get, h1, h2, if_false]
      exact h

/-- The capacity bound is preserved by any release sequence. -/
lemma release_seq_len_le (k : String) (ds : List Session) :
    ∀ s : ServiceState, pool_len s k ≤ MAX_POOL_SIZE →
      pool_len (release_seq s k ds) k ≤ MAX_POOL_SIZE := by
  induction ds with
  | nil => intro s h; exact h
  | cons d ds ih =>
    intro s h
    exact ih _ (pool_len_release_le s k d h)

/-- C4: for every kind and every sequence of releases with no intervening
acquire (in particular `MAX_POOL_SIZE + 1` of them), the idle collection
never exceeds `MAX_POOL_SIZE`; and a release performed while the
collection is full disposes the driver (`quit`, flag `true`) and leaves
the state unchanged, rather than queueing it. -/
theorem C4_idle_pool_bounded (s : ServiceState) (k : String) (ds : List Session)
    (h : pool_len s k ≤ MAX_POOL_SIZE) :
    pool_len (release_seq s k ds) k ≤ MAX_POOL_SIZE ∧
    (∀ d, MAX_POOL_SIZE ≤ pool_len s k → return_driver_to_pool s k d = (s, true)) := by
  refine ⟨release_seq_len_le k ds s h, ?_⟩
  intro d hfull
  by_cases h1 : k = "chrome"
  · subst h1
    obtain ⟨cp, fp, n⟩ := s
    simp only [pool_len, pools_get, MAX_POOL_SIZE, String.reduceEq, reduceIte,
      Option.getD_some] at hfull
    simp only [return_driver_to_pool, pools_get, MAX_POOL_SIZE, String.reduceEq,
      reduceIte]
    rw [if_neg (by omega)]
  · by_cases h2 : k = "firefox"
    · subst h2
      obtain ⟨cp, fp, n⟩ := s
      simp only [pool_len, pools_get, MAX_POOL_SIZE, String.reduceEq, reduceIte,
        Option.getD_some] at hfull
      simp only [return_driver_to_pool, pools_get, MAX_POOL_SIZE, String.reduceEq,
        reduceIte]
      rw [if_neg (by omega)]
    · simp only [return_driver_to_pool, pools_get, h1, h2, if_false]

/-- Witness for C4 at a concrete input: six sequential releases of fresh
sessions into an initially empty chrome pool leave at most five idle. -/
theorem C4_idle_pool_bounded_witness :
    pool_len ⟨[], [], 0⟩ "chrome" ≤ MAX_POOL_SIZE ∧
    pool_len (release_seq ⟨[], [], 0⟩ "chrome"
      [⟨0, "chrome", .jnull⟩, ⟨1, "chrome", .jnull⟩, ⟨2, "chrome", .jnull⟩,
       ⟨3, "chrome", .jnull⟩, ⟨4, "chrome", .jnull⟩, ⟨5, "chrome", .jnull⟩])
      "chrome" ≤ MAX_POOL_SIZE :=
  ⟨by decide,
   (C4_idle_pool_bounded ⟨[], [], 0⟩ "chrome"
      [⟨0, "chrome", .jnull⟩, ⟨1, "chrome", .jnull⟩, ⟨2, "chrome", .jnull⟩,
       ⟨3, "chrome", .jnull⟩, ⟨4, "chrome", .jnull⟩, ⟨5, "chrome", .jnull⟩]
      (by decide)).1⟩

/-- Bumping the fresh-id supply does not change the pools. -/
lemma pools_get_next_id (s : ServiceState) (k : String) (m : Nat) :
    pools_get { s with next_id := m } k = pools_get s k := by
  simp [pools_get]

/-- Reading back the pool just written. -/
lemma pools_get_pools_set_self (s : ServiceState) (k : String) (l : List Session)
    (hk : (pools_get s k).isSome) : pools_get (pools_set s k l) k = some l := by
  rcases kind_of_pools_get_isSome hk with h | h <;> subst h <;>
    simp [pools_get, pools_set]

/-- Acquire on a non-empty pool pops the last (most recently appended)
driver. -/
lemma get_driver_concat (s : ServiceState) (k : String) (l : List Session)
    (d : Session) (fp : JVal) (hp : pools_get s k = some (l ++ [d])) :
    get_driver s k fp = .ok (d, pools_set s k l) := by
  simp [get_driver, hp, List.getLast?_concat, List.dropLast_concat]

/-- Acquire on an empty pool delegates to the factory. -/
lemma get_driver_empty (s : ServiceState) (k : String) (fp : JVal)
    (hp : pools_get s k = some []) :
    get_driver s k fp = configure_driver s k fp := by
  simp [get_driver, hp]

/-- The factory succeeds for a recognised kind, recording the fingerprint
in the fresh session. -/
lemma configure_driver_known (s : ServiceState) (k : String) (fp : JVal)
    (hk : k = "chrome" ∨ k = "firefox") :
    configure_driver s k fp =
      .ok (⟨s.next_id, k, fp⟩, { s with next_id := s.next_id + 1 }) := by
  simp [configure_driver, hk]

/-- A release into a pool with room appends at the tail. -/
lemma return_room (s : ServiceState) (k : String) (pool : List Session)
    (d : Session) (hp : pools_get s k = some pool)
    (h : pool.length < MAX_POOL_SIZE) :
    return_driver_to_pool s k d = (pools_set s k (pool ++ [d]), false) := by
  simp [return_driver_to_pool, hp, h]

/-- Releasing into a pool with room and acquiring again yields back the
released driver (LIFO). -/
lemma release_then_acquire (s : ServiceState) (k : String) (d : Session)
    (fp : JVal) (hk : (pools_get s k).isSome)
    (hroom : pool_len s k < MAX_POOL_SIZE) :
    ∃ s3, get_driver (return_driver_to_pool s k d).1 k fp = .ok (d, s3) := by
  obtain ⟨pool, hp⟩ := Option.isSome_iff_exists.mp hk
  have hlen : pool.length < MAX_POOL_SIZE := by
    simpa [pool_len, hp] using hroom
  rw [return_room s k pool d hp hlen]
  exact ⟨_, get_driver_concat _ k pool d fp (pools_get_pools_set_self s k _ hk)⟩

/-- C5: for a recognised kind whose idle pool is below capacity,
(1) acquire, release, acquire again yields the very same session
instance; (2) when several idle sessions exist, acquire returns the
most-recently released one (the tail of the idle list, LIFO), removing
it; (3) a fresh session is created via the factory exactly when the idle
pool is empty. -/
theorem C5_pool_lifo_reuse (s : ServiceState) (k : String) (fp fp2 : JVal)
    (hk : (pools_get s k).isSome) (hroom : pool_len s k < MAX_POOL_SIZE) :
    (∀ d s1, get_driver s k fp = .ok (d, s1) →
      ∃ s3, get_driver (return_driver_to_pool s1 k d).1 k fp2 = .ok (d, s3)) ∧
    (∀ pool d, pools_get s k = some (pool ++ [d]) →
      get_driver s k fp = .ok (d, pools_set s k pool)) ∧
    (pools_get s k = some [] →
      get_driver s k fp =
        .ok (⟨s.next_id, k, fp⟩, { s with next_id := s.next_id + 1 })) := by
  obtain ⟨pool, hp⟩ := Option.isSome_iff_exists.mp hk
  refine ⟨?_, ?_, ?_⟩
  · intro d s1 hgd
    rcases pool.eq_nil_or_concat with rfl | ⟨l, d0, hpl⟩
    · rw [get_driver_empty s k fp hp,
        configure_driver_known s k fp (kind_of_pools_get_isSome hk)] at hgd
      simp only [Except.ok.injEq, Prod.mk.injEq] at hgd
      obtain ⟨hd, hs1⟩ := hgd
      subst hd; subst hs1
      apply release_then_acquire
      · rw [Option.isSome_iff_exists]
        exact ⟨[], by rw [pools_get_next_id, hp]⟩
      · simp [pool_len, pools_get_next_id, hp, MAX_POOL_SIZE]
    · rw [List.concat_eq_append] at hpl
      subst hpl
      rw [get_driver_concat s k l d0 fp hp] at hgd
      simp only [Except.ok.injEq, Prod.mk.injEq] at hgd
      obtain ⟨hd, hs1⟩ := hgd
      subst hd; subst hs1
      apply release_then_acquire
      · rw [Option.isSome_iff_exists]
        exact ⟨l, pools_get_pools_set_self s k l hk⟩
      · have h5 : (l ++ [d0]).length < MAX_POOL_SIZE := by
          simpa [pool_len, hp] using hroom
        simp only [pool_len, pools_get_pools_set_self s k l hk, Option.getD_some]
        simp only [List.length_append, List.length_singleton] at h5
        omega
  · intro pool2 d hp2
    exact get_driver_concat s k pool2 d fp hp2
  · intro hp0
    rw [get_driver_empty s k fp hp0,
      configure_driver_known s k fp (kind_of_pools_get_isSome hk)]

/-- Witness for C5 at a concrete state: one idle chrome session. -/
theorem C5_pool_lifo_reuse_witness :
    ((pools_get ⟨[⟨7, "chrome", .jnull⟩], [], 0⟩ "chrome").isSome ∧
     pool_len ⟨[⟨7, "chrome", .jnull⟩], [], 0⟩ "chrome" < MAX_POOL_SIZE) ∧
    (∀ d s1,
      get_driver ⟨[⟨7, "chrome", .jnull⟩], [], 0⟩ "chrome" .jnull = .ok (d, s1) →
      ∃ s3, get_driver (return_driver_to_pool s1 "chrome" d).1 "chrome"
        (.jobj []) = .ok (d, s3)) :=
  ⟨⟨by decide, by decide⟩,
   (C5_pool_lifo_reuse ⟨[⟨7, "chrome", .jnull⟩], [], 0⟩ "chrome" .jnull
      (.jobj []) (by decide) (by decide)).1⟩

/-- C10: when the idle pool for the requested kind is non-empty, `get_driver`
returns the popped idle session unchanged and the fingerprint argument has
no effect — the same call with two different fingerprints returns the
identical session and state; the fingerprint is recorded in a session
only on the factory path, which runs exactly when the pool is empty. -/
theorem C10_fingerprint_irrelevant_on_pool_hit (s : ServiceState) (k : String)
    (pool : List Session) (d : Session) (fp1 fp2 : JVal)
    (hp : pools_get s k = some (pool ++ [d])) :
    get_driver s k fp1 = get_driver s k fp2 ∧
    get_driver s k fp1 = .ok (d, pools_set s k pool) ∧
    (∀ t : ServiceState, pools_get t k = some [] →
      get_driver t k fp1 =
        .ok (⟨t.next_id, k, fp1⟩, { t with next_id := t.next_id + 1 })) := by
  have hk : (pools_get s k).isSome := by rw [hp]; rfl
  refine ⟨?_, get_driver_concat s k pool d fp1 hp, ?_⟩
  · rw [get_driver_concat s k pool d fp1 hp, get_driver_concat s k pool d fp2 hp]
  · intro t hp0
    rw [get_driver_empty t k fp1 hp0,
      configure_driver_known t k fp1 (kind_of_pools_get_isSome hk)]

/-- Witness for C10: two different fingerprints against a one-session
chrome pool give the identical acquire result. -/
theorem C10_fingerprint_irrelevant_witness :
    pools_get ⟨[⟨3, "chrome", .jnull⟩], [], 9⟩ "chrome" =
      some ([] ++ [⟨3, "chrome", .jnull⟩]) ∧
    get_driver ⟨[⟨3, "chrome", .jnull⟩], [], 9⟩ "chrome" (.jstr "fpA") =
      get_driver ⟨[⟨3, "chrome", .jnull⟩], [], 9⟩ "chrome" (.jstr "fpB") :=
  ⟨by rfl,
   (C10_fingerprint_irrelevant_on_pool_hit ⟨[⟨3, "chrome", .jnull⟩], [], 9⟩
      "chrome" [] ⟨3, "chrome", .jnull⟩ (.jstr "fpA") (.jstr "fpB") (by rfl)).1⟩

/-- C8: a `/crawl` request whose (lower-cased) `browser_type` has no pool
entry answers immediately with `success:false` and the
`Unsupported browser type` message, with the state returned untouched: in
particular `next_id` is unchanged, so the factory was never invoked and
no session was created or popped. -/
theorem C8_unsupported_kind_no_factory (s : ServiceState)
    (data : List (String × JVal)) (urlv : JVal) (bt0 : String)
    (exec : ExecOutcome)
    (hurl : data.lookup "url" = some urlv)
    (hbt : jsonGet data "browser_type" (.jstr "chrome") = .jstr bt0)
    (hk : pools_get s (pyLower bt0) = none) :
    crawl_route s data exec =
      (.resp200 [("success", .jbool false),
                 ("error", .jstr ("Unsupported browser type: " ++ (pyLower bt0)))],
       s) := by
  simp only [crawl_route, hurl, hbt, hk]

/-- Witness for C8: a `Safari` request against the fresh service state. -/
theorem C8_unsupported_kind_witness :
    ([("url", JVal.jstr "http://x"),
      ("browser_type", JVal.jstr "Safari")].lookup "url" = some (.jstr "http://x")) ∧
    crawl_route ⟨[], [], 0⟩
        [("url", .jstr "http://x"), ("browser_type", .jstr "Safari")]
        (.ok [] "") =
      (.resp200 [("success", .jbool false),
                 ("error", .jstr ("Unsupported browser type: " ++ (pyLower "Safari")))],
       ⟨[], [], 0⟩) :=
  ⟨rfl,
   C8_unsupported_kind_no_factory ⟨[], [], 0⟩
     [("url", .jstr "http://x"), ("browser_type", .jstr "Safari")]
     (.jstr "http://x") "Safari" (.ok [] "") rfl rfl rfl⟩

/-- For a recognised kind, acquisition always succeeds in the model. -/
lemma get_driver_known_ok (s : ServiceState) (k : String) (fp : JVal)
    (hk : (pools_get s k).isSome) :
    ∃ d s1, get_driver s k fp = .ok (d, s1) := by
  obtain ⟨pool, hp⟩ := Option.isSome_iff_exists.mp hk
  rcases pool.eq_nil_or_concat with rfl | ⟨l, d0, hpl⟩
  · exact ⟨_, _, by
      rw [get_driver_empty s k fp hp,
        configure_driver_known s k fp (kind_of_pools_get_isSome hk)]⟩
  · rw [List.concat_eq_append] at hpl
    subst hpl
    exact ⟨d0, _, get_driver_concat s k l d0 fp hp⟩

/-- Acquisition preserves the existence of the kind's pool entry. -/
lemma get_driver_preserves_kind (s : ServiceState) (k : String) (fp : JVal)
    (d : Session) (s1 : ServiceState) (hk : (pools_get s k).isSome)
    (hgd : get_driver s k fp = .ok (d, s1)) :
    (pools_get s1 k).isSome := by
  obtain ⟨pool, hp⟩ := Option.isSome_iff_exists.mp hk
  rcases pool.eq_nil_or_concat with rfl | ⟨l, d0, hpl⟩
  · rw [get_driver_empty s k fp hp,
      configure_driver_known s k fp (kind_of_pools_get_isSome hk)] at hgd
    simp only [Except.ok.injEq, Prod.mk.injEq] at hgd
    obtain ⟨_, hs1⟩ := hgd
    subst hs1
    rw [pools_get_next_id]
    exact hk
  · rw [List.concat_eq_append] at hpl
    subst hpl
    rw [get_driver_concat s k l d0 fp hp] at hgd
    simp only [Except.ok.injEq, Prod.mk.injEq] at hgd
    obtain ⟨_, hs1⟩ := hgd
    subst hs1
    rw [pools_get_pools_set_self s k l hk]
    rfl

/-- Route-level reduction: with `url` present and a string `browser_type`
naming a recognised kind, `crawl` proceeds into its `try:` block. -/
lemma crawl_route_known (s : ServiceState) (data : List (String × JVal))
    (urlv : JVal) (bt0 : String) (exec : ExecOutcome)
    (hurl : data.lookup "url" = some urlv)
    (hbt : jsonGet data "browser_type" (.jstr "chrome") = .jstr bt0)
    (hk : (pools_get s (pyLower bt0)).isSome) :
    crawl_route s data exec = crawl_try s data urlv (pyLower bt0) exec := by
  obtain ⟨pool, hp⟩ := Option.isSome_iff_exists.mp hk
  simp only [crawl_route, hurl, hbt, hp]

/-- C1 (amended): a mid-crawl `WebDriverException` yields `success:false`
with a non-empty error, but the held session is handed to
`return_driver_to_pool` by the `finally:` clause rather than disposed:
when the idle pool has room the failed session is appended, and — the
pool being LIFO — the very next acquire for that kind receives exactly
the failed session.  It is quit only when the pool is already full. -/
theorem C1_driver_failure_session_repooled (s : ServiceState)
    (data : List (String × JVal)) (url bt0 msg : String)
    (hurl : data.lookup "url" = some (.jstr url))
    (hbt : jsonGet data "browser_type" (.jstr "chrome") = .jstr bt0)
    (hk : (pools_get s (pyLower bt0)).isSome) :
    ∃ d s1,
      get_driver s (pyLower bt0) (jsonGet data "fingerprint" (.jobj [])) =
        .ok (d, s1) ∧
      crawl_route s data (.webdriver msg) =
        (.resp200 [("success", .jbool false),
                   ("error", .jstr ("WebDriver error for " ++ url ++ ": " ++ msg)),
                   ("url", .jstr url), ("title", .jstr ""), ("content", .jstr ""),
                   ("links", .jarr [])],
         (return_driver_to_pool s1 (pyLower bt0) d).1) ∧
      ("WebDriver error for " ++ url ++ ": " ++ msg) ≠ "" ∧
      (pool_len s1 (pyLower bt0) < MAX_POOL_SIZE →
        ∃ s3, get_driver (return_driver_to_pool s1 (pyLower bt0) d).1 (pyLower bt0)
          (.jobj []) = .ok (d, s3)) := by
  obtain ⟨d, s1, hgd⟩ :=
    get_driver_known_ok s (pyLower bt0) (jsonGet data "fingerprint" (.jobj [])) hk
  refine ⟨d, s1, hgd, ?_, ?_, ?_⟩
  · rw [crawl_route_known s data (.jstr url) bt0 (.webdriver msg) hurl hbt hk]
    simp only [crawl_try, hgd]
  · intro h
    have hl := congrArg String.length h
    simp only [String.length_append] at hl
    have h20 : ("WebDriver error for " : String).length = 20 := by decide
    have h2 : (": " : String).length = 2 := by decide
    have h0 : ("" : String).length = 0 := by decide
    omega
  · intro hroom
    exact release_then_acquire s1 (pyLower bt0) d (.jobj [])
      (get_driver_preserves_kind s (pyLower bt0) _ d s1 hk hgd) hroom

/-- Counterexample to C1 as stated: starting from an empty chrome pool,
a crawl whose driver raises `WebDriverException` mid-crawl leaves the
failed session in the idle pool, and the next acquire for `chrome`
receives exactly that session — the claim says a subsequent acquire
never receives it. -/
theorem C1_counterexample :
    (crawl_route ⟨[], [], 0⟩ [("url", .jstr "http://a.example")]
        (.webdriver "connection lost")).2.chrome_pool =
      [⟨0, "chrome", .jobj []⟩] ∧
    get_driver (crawl_route ⟨[], [], 0⟩ [("url", .jstr "http://a.example")]
        (.webdriver "connection lost")).2 "chrome" (.jobj []) =
      .ok (⟨0, "chrome", .jobj []⟩, ⟨[], [], 1⟩) :=
  ⟨rfl, rfl⟩

/-- Witness for the amended C1 at a concrete input: one idle chrome
session, a crawl against it that fails mid-crawl. -/
theorem C1_driver_failure_witness :
    ∃ d s1,
      get_driver ⟨[⟨4, "chrome", .jnull⟩], [], 0⟩ (pyLower "chrome")
          (jsonGet [("url", .jstr "http://w.example")] "fingerprint" (.jobj [])) =
        .ok (d, s1) ∧
      crawl_route ⟨[⟨4, "chrome", .jnull⟩], [], 0⟩
          [("url", .jstr "http://w.example")] (.webdriver "timeout") =
        (.resp200 [("success", .jbool false),
                   ("error", .jstr ("WebDriver error for " ++ "http://w.example" ++
                     ": " ++ "timeout")),
                   ("url", .jstr "http://w.example"), ("title", .jstr ""),
                   ("content", .jstr ""), ("links", .jarr [])],
         (return_driver_to_pool s1 (pyLower "chrome") d).1) ∧
      ("WebDriver error for " ++ "http://w.example" ++ ": " ++ "timeout") ≠ "" ∧
      (pool_len s1 (pyLower "chrome") < MAX_POOL_SIZE →
        ∃ s3, get_driver (return_driver_to_pool s1 (pyLower "chrome") d).1
          (pyLower "chrome") (.jobj []) = .ok (d, s3)) :=
  C1_driver_failure_session_repooled ⟨[⟨4, "chrome", .jnull⟩], [], 0⟩
    [("url", .jstr "http://w.example")] "http://w.example" "chrome" "timeout"
    rfl rfl (by rfl)

/-- C2 (amended): the `WebDriverException` and generic-exception failure
results do carry the original request URL and default/empty title,
content, links; the unsupported-kind failure does not (see the
counterexample), so the uniform shape holds only for the two exception
paths. -/
theorem C2_exception_failure_shape (s : ServiceState)
    (data : List (String × JVal)) (url bt0 msg tb : String)
    (hurl : data.lookup "url" = some (.jstr url))
    (hbt : jsonGet data "browser_type" (.jstr "chrome") = .jstr bt0)
    (hk : (pools_get s (pyLower bt0)).isSome) :
    (∃ s2, crawl_route s data (.webdriver msg) =
      (.resp200 [("success", .jbool false),
                 ("error", .jstr ("WebDriver error for " ++ url ++ ": " ++ msg)),
                 ("url", .jstr url), ("title", .jstr ""), ("content", .jstr ""),
                 ("links", .jarr [])], s2)) ∧
    (∃ s2, crawl_route s data (.exc msg tb) =
      (.resp200 [("success", .jbool false),
                 ("error", .jstr ("Error crawling " ++ url ++ ": " ++ msg ++
                   "\n" ++ tb)),
                 ("url", .jstr url), ("title", .jstr ""), ("content", .jstr ""),
                 ("links", .jarr [])], s2)) := by
  obtain ⟨d, s1, hgd⟩ :=
    get_driver_known_ok s (pyLower bt0) (jsonGet data "fingerprint" (.jobj [])) hk
  constructor
  · rw [crawl_route_known s data (.jstr url) bt0 (.webdriver msg) hurl hbt hk]
    exact ⟨(return_driver_to_pool s1 (pyLower bt0) d).1, by simp only [crawl_try, hgd]⟩
  · rw [crawl_route_known s data (.jstr url) bt0 (.exc msg tb) hurl hbt hk]
    exact ⟨(return_driver_to_pool s1 (pyLower bt0) d).1, by simp only [crawl_try, hgd]⟩

/-- Counterexample to C2 as stated: the unsupported-browser-kind failure
body carries only `success` and `error` — no `url`, `title`, `content` or
`links` keys — so the response shape is not identical across failures. -/
theorem C2_counterexample :
    (crawl_route ⟨[], [], 0⟩
        [("url", .jstr "http://x"), ("browser_type", .jstr "safari")]
        (.webdriver "m")).1 =
      .resp200 [("success", .jbool false),
                ("error", .jstr "Unsupported browser type: safari")] ∧
    List.lookup "url" [("success", JVal.jbool false),
      ("error", JVal.jstr "Unsupported browser type: safari")] = none ∧
    List.lookup "title" [("success", JVal.jbool false),
      ("error", JVal.jstr "Unsupported browser type: safari")] = none ∧
    List.lookup "content" [("success", JVal.jbool false),
      ("error", JVal.jstr "Unsupported browser type: safari")] = none ∧
    List.lookup "links" [("success", JVal.jbool false),
      ("error", JVal.jstr "Unsupported browser type: safari")] = none :=
  ⟨rfl, rfl, rfl, rfl, rfl⟩

/-- Witness for the amended C2 at a concrete input. -/
theorem C2_exception_failure_witness :
    ∃ s2, crawl_route ⟨[], [], 0⟩ [("url", .jstr "http://y")] (.webdriver "boom") =
      (.resp200 [("success", .jbool false),
                 ("error", .jstr ("WebDriver error for " ++ "http://y" ++ ": " ++
                   "boom")),
                 ("url", .jstr "http://y"), ("title", .jstr ""),
                 ("content", .jstr ""), ("links", .jarr [])], s2) :=
  (C2_exception_failure_shape ⟨[], [], 0⟩ [("url", .jstr "http://y")]
    "http://y" "chrome" "boom" "tb" rfl rfl (by rfl)).1

/-- Counterexample to C3 as stated: a body without a `url` key makes
`data['url']` raise `KeyError` before the `try:` block, so the exception
escapes the handler instead of an HTTP 200 `CrawlResult` being returned. -/
theorem C3_counterexample :
    crawl_route ⟨[], [], 0⟩ [("browser_type", .jstr "chrome")] (.ok [] "") =
      (.unhandled "KeyError", ⟨[], [], 0⟩) :=
  rfl

/-- C3 (amended): for every JSON-object body that does contain a `url`
key and whose `browser_type`, when present, is a string, the handler
returns a structured JSON body with HTTP 200 under every execution
outcome, and failure is signalled only through `success:false` in the
body; bodies missing `url` (KeyError) or carrying a non-string
`browser_type` (AttributeError) raise before the `try:` block and escape
the handler. -/
theorem C3_http_200_contract (s : ServiceState) (data : List (String × JVal))
    (urlv : JVal) (bt0 : String) (exec : ExecOutcome)
    (hurl : data.lookup "url" = some urlv)
    (hbt : jsonGet data "browser_type" (.jstr "chrome") = .jstr bt0) :
    ∃ body s2, crawl_route s data exec = (.resp200 body, s2) ∧
      (body.lookup "success" = some (.jbool true) ∨
       body.lookup "success" = some (.jbool false)) := by
  simp only [crawl_route, hurl, hbt]
  cases hp : pools_get s (pyLower bt0) with
  | none => exact ⟨_, _, rfl, .inr rfl⟩
  | some pool =>
    cases urlv with
    | jstr url =>
      cases hgd : get_driver s (pyLower bt0) (jsonGet data "fingerprint" (.jobj [])) with
      | error e =>
        simp only [crawl_try, hgd]
        exact ⟨_, _, rfl, .inr rfl⟩
      | ok pair =>
        obtain ⟨d, s1⟩ := pair
        cases exec with
        | ok result shot =>
          simp only [crawl_try, hgd]
          exact ⟨_, _, rfl, .inl rfl⟩
        | webdriver msg =>
          simp only [crawl_try, hgd]
          exact ⟨_, _, rfl, .inr rfl⟩
        | exc msg tb =>
          simp only [crawl_try, hgd]
          exact ⟨_, _, rfl, .inr rfl⟩
    | jbool b => exact ⟨_, _, rfl, .inr rfl⟩
    | jnum n => exact ⟨_, _, rfl, .inr rfl⟩
    | jnull => exact ⟨_, _, rfl, .inr rfl⟩
    | jarr l => exact ⟨_, _, rfl, .inr rfl⟩
    | jobj o => exact ⟨_, _, rfl, .inr rfl⟩

/-- Witness for the amended C3 at a concrete input: a body whose `url` is
present (here even a non-string one, which the handler survives inside
its `try:`). -/
theorem C3_http_200_witness :
    ∃ body s2,
      crawl_route ⟨[], [], 0⟩ [("url", .jnum 7)] (.ok [] "") =
        (.resp200 body, s2) ∧
      (body.lookup "success" = some (.jbool true) ∨
       body.lookup "success" = some (.jbool false)) :=
  C3_http_200_contract ⟨[], [], 0⟩ [("url", .jnum 7)] (.jnum 7) "chrome"
    (.ok [] "") rfl rfl

/-- Counterexample to C7 as stated: a strategy result carrying the extra
field `article_data` (as the bundled wikipedia script does) is not passed
through — the response is built from exactly seven fixed keys and drops
`article_data`. -/
theorem C7_counterexample :
    (crawl_route ⟨[], [], 0⟩ [("url", .jstr "http://x")]
        (.ok [("title", .jstr "T"), ("content", .jstr "C"), ("links", .jarr []),
              ("article_data", .jobj [("summary", .jstr "S")]),
              ("metrics", .jobj [("links_count", .jnum 3)])] "p")).1 =
      .resp200 [("success", .jbool true), ("url", .jstr "http://x"),
                ("title", .jstr "T"), ("content", .jstr "C"),
                ("links", .jarr []), ("screenshot", .jnull),
                ("metrics", .jobj [("links_count", .jnum 3)])] ∧
    List.lookup "article_data"
      [("title", JVal.jstr "T"), ("content", JVal.jstr "C"),
       ("links", JVal.jarr []),
       ("article_data", JVal.jobj [("summary", JVal.jstr "S")]),
       ("metrics", JVal.jobj [("links_count", JVal.jnum 3)])] =
      some (.jobj [("summary", .jstr "S")]) ∧
    List.lookup "article_data"
      [("success", JVal.jbool true), ("url", JVal.jstr "http://x"),
       ("title", JVal.jstr "T"), ("content", JVal.jstr "C"),
       ("links", JVal.jarr []), ("screenshot", JVal.jnull),
       ("metrics", JVal.jobj [("links_count", JVal.jnum 3)])] = none :=
  ⟨rfl, rfl, rfl⟩

/-- C7 (amended): of a successful strategy's extra structured fields,
exactly the `metrics` entry is passed through verbatim (defaulting to an
empty object); every other strategy-provided key outside the seven fixed
response keys is dropped from the response. -/
theorem C7_only_metrics_passthrough (s : ServiceState)
    (data : List (String × JVal)) (url bt0 shot : String)
    (result : List (String × JVal))
    (hurl : data.lookup "url" = some (.jstr url))
    (hbt : jsonGet data "browser_type" (.jstr "chrome") = .jstr bt0)
    (hk : (pools_get s (pyLower bt0)).isSome) :
    ∃ body s2, crawl_route s data (.ok result shot) = (.resp200 body, s2) ∧
      body.lookup "metrics" = some (jsonGet result "metrics" (.jobj [])) ∧
      (∀ key : String, key ≠ "success" → key ≠ "url" → key ≠ "title" →
        key ≠ "content" → key ≠ "links" → key ≠ "screenshot" →
        key ≠ "metrics" → body.lookup key = none) := by
  obtain ⟨d, s1, hgd⟩ :=
    get_driver_known_ok s (pyLower bt0) (jsonGet data "fingerprint" (.jobj [])) hk
  rw [crawl_route_known s data (.jstr url) bt0 (.ok result shot) hurl hbt hk]
  refine ⟨[("success", .jbool true), ("url", .jstr url),
           ("title", jsonGet result "title" (.jstr "")),
           ("content", jsonGet result "content" (.jstr "")),
           ("links", jsonGet result "links" (.jarr [])),
           ("screenshot",
             if jTruthy (jsonGet data "take_screenshot" (.jbool false)) then
               .jstr shot
             else .jnull),
           ("metrics", jsonGet result "metrics" (.jobj []))],
    (return_driver_to_pool s1 (pyLower bt0) d).1,
    by simp only [crawl_try, hgd], rfl, ?_⟩
  intro key h1 h2 h3 h4 h5 h6 h7
  have e1 : (key == "success") = false := by simpa using h1
  have e2 : (key == "url") = false := by simpa using h2
  have e3 : (key == "title") = false := by simpa using h3
  have e4 : (key == "content") = false := by simpa using h4
  have e5 : (key == "links") = false := by simpa using h5
  have e6 : (key == "screenshot") = false := by simpa using h6
  have e7 : (key == "metrics") = false := by simpa using h7
  simp [List.lookup, e1, e2, e3, e4, e5, e6, e7]

/-- Witness for the amended C7 at a concrete input: a result with an
extra `article_data` field beside `metrics`. -/
theorem C7_only_metrics_witness :
    ∃ body s2,
      crawl_route ⟨[], [], 0⟩ [("url", .jstr "http://z")]
          (.ok [("title", .jstr "T"),
                ("article_data", .jobj [("summary", .jstr "S")]),
                ("metrics", .jobj [("height", .jnum 9)])] "p") =
        (.resp200 body, s2) ∧
      body.lookup "metrics" =
        some (jsonGet [("title", .jstr "T"),
                       ("article_data", .jobj [("summary", .jstr "S")]),
                       ("metrics", .jobj [("height", .jnum 9)])]
               "metrics" (.jobj [])) ∧
      (∀ key : String, key ≠ "success" → key ≠ "url" → key ≠ "title" →
        key ≠ "content" → key ≠ "links" → key ≠ "screenshot" →
        key ≠ "metrics" → body.lookup key = none) :=
  C7_only_metrics_passthrough ⟨[], [], 0⟩ [("url", .jstr "http://z")]
    "http://z" "chrome" "p"
    [("title", .jstr "T"), ("article_data", .jobj [("summary", .jstr "S")]),
     ("metrics", .jobj [("height", .jnum 9)])]
    rfl rfl (by rfl)

/-- Characters satisfying the separator relation map equally through the
two chained single-character replacements of `normalize_domain`. -/
lemma sep_map_eq (l1 l2 : List Char)
    (h : List.Forall₂
      (fun a b => a = b ∨ ((a = '.' ∨ a = '-') ∧ (b = '.' ∨ b = '-'))) l1 l2) :
    (l1.map (fun x => if x = '.' then '_' else x)).map
        (fun x => if x = '-' then '_' else x) =
      (l2.map (fun x => if x = '.' then '_' else x)).map
        (fun x => if x = '-' then '_' else x) := by
  induction h with
  | nil => rfl
  | cons hab htl ih =>
    simp only [List.map_cons, List.cons.injEq]
    refine ⟨?_, ih⟩
    rcases hab with rfl | ⟨ha, hb⟩
    · rfl
    · rcases ha with rfl | rfl <;> rcases hb with rfl | rfl <;> rfl

/-- A truthy, string-valued script body is written under the normalised
domain, shadowing any previous entry. -/
lemma upload_script_writes (st : ScriptStore) (domain content : String)
    (hne : content ≠ "") :
    (upload_script st domain (some [("script", .jstr content)])).1 =
      ⟨(normalize_domain domain, content) :: st.files⟩ := by
  simp [upload_script, jsonGet, jTruthy, hne]

/-- C6: after registering a strategy body under a domain key, a crawl
request whose URL's netloc normalises to the same key resolves to that
body (the backing store is re-read per request); registering a second
body under the same key shadows the first, so the very next request
resolves to the new body; and the key normalisation maps both `.` and
`-` to `_`, so two domains differing only at such separator positions
normalise identically and share one registry entry. -/
theorem C6_registry_register_resolve (execOk hasCrawl : String → Bool)
    (st : ScriptStore) (key url body body2 : String)
    (hnorm : normalize_domain (netlocOf url) = normalize_domain key)
    (hb1 : body ≠ "") (hb2 : body2 ≠ "")
    (hok1 : execOk body = true) (hcr1 : hasCrawl body = true)
    (hok2 : execOk body2 = true) (hcr2 : hasCrawl body2 = true) :
    resolve_strategy execOk hasCrawl
      (upload_script st key (some [("script", .jstr body)])).1 url = some body ∧
    resolve_strategy execOk hasCrawl
      (upload_script (upload_script st key (some [("script", .jstr body)])).1
        key (some [("script", .jstr body2)])).1 url = some body2 ∧
    (∀ d1 d2 : String,
      List.Forall₂ (fun a b => a = b ∨ ((a = '.' ∨ a = '-') ∧ (b = '.' ∨ b = '-')))
        d1.data d2.data →
      normalize_domain d1 = normalize_domain d2) := by
  refine ⟨?_, ?_, ?_⟩
  · rw [upload_script_writes st key body hb1]
    simp [resolve_strategy, load_custom_script, store_get, hnorm, List.lookup,
      hok1, hcr1]
  · rw [upload_script_writes st key body hb1,
      upload_script_writes _ key body2 hb2]
    simp [resolve_strategy, load_custom_script, store_get, hnorm, List.lookup,
      hok2, hcr2]
  · intro d1 d2 h
    simp only [normalize_domain, replaceChar]
    exact congrArg String.mk (sep_map_eq d1.data d2.data h)

/-- Witness for C6 at the spec's own example: registering for
`example.com`, then requesting `https://example.com/x`, with the
separator-collision instance `example.com` / `example-com`. -/
theorem C6_registry_register_resolve_witness :
    resolve_strategy (fun _ => true) (fun _ => true)
      (upload_script ⟨[]⟩ "example.com"
        (some [("script", .jstr "def crawl: v1")])).1
      "https://example.com/x" = some "def crawl: v1" ∧
    resolve_strategy (fun _ => true) (fun _ => true)
      (upload_script
        (upload_script ⟨[]⟩ "example.com"
          (some [("script", .jstr "def crawl: v1")])).1
        "example.com" (some [("script", .jstr "def crawl: v2")])).1
      "https://example.com/x" = some "def crawl: v2" :=
  ⟨(C6_registry_register_resolve (fun _ => true) (fun _ => true) ⟨[]⟩
      "example.com" "https://example.com/x" "def crawl: v1" "def crawl: v2"
      rfl (by decide) (by decide) rfl rfl rfl rfl).1,
   (C6_registry_register_resolve (fun _ => true) (fun _ => true) ⟨[]⟩
      "example.com" "https://example.com/x" "def crawl: v1" "def crawl: v2"
      rfl (by decide) (by decide) rfl rfl rfl rfl).2.1⟩

/-- Stale anchors are invisible to the link extraction: the per-anchor
`except: pass` makes the scan agree with the scan of the non-stale
anchors only. -/
lemma extract_links_scan_filter (l : List PElem) :
    extract_links_scan l = extract_links_scan (l.filter (fun e => !e.stale)) := by
  induction l with
  | nil => rfl
  | cons e rest ih =>
    by_cases hs : e.stale = true
    · simp [extract_links_scan, hs, ih]
    · have hb : (!e.stale) = true := by simp [hs]
      have hs' : e.stale = false := by simp at hs; exact hs
      simp only [List.filter_cons, hb, if_true]
      simp only [extract_links_scan, hs', Bool.false_eq_true, if_false]
      cases e.href with
      | none => exact ih
      | some href =>
        by_cases hh : strStartsWith href "http" = true
        · simp [hh, ih]
        · simp [hh, ih]

/-- C9 (amended): only `extract_all_links` tolerates stale elements — its
result is exactly the scan of the non-stale anchors, a possibly-partial
list.  `find_clickable_elements` and `find_forms` have no per-element
exception handling: reaching a stale element aborts the whole enumeration
with the raised `StaleElementReferenceException`. -/
theorem C9_discovery_stale_tolerance :
    (∀ page : Page, extract_all_links page =
      extract_all_links ⟨page.anchors.filter (fun e => !e.stale),
        page.buttons, page.inputButtons, page.forms⟩) ∧
    (∀ (e : PElem) (l buttons inputs : List PElem) (forms : List PForm)
        (n : Nat), e.stale = true →
      find_clickable_elements ⟨e :: l, buttons, inputs, forms⟩ n =
        .error "StaleElementReferenceException") ∧
    (∀ (e : PElem) (inps subs anchors buttons inputs : List PElem)
        (fs : List PForm), e.stale = true →
      find_forms ⟨anchors, buttons, inputs, ⟨e :: inps, subs⟩ :: fs⟩ =
        .error "StaleElementReferenceException") := by
  refine ⟨?_, ?_, ?_⟩
  · intro page
    exact extract_links_scan_filter page.anchors
  · intro e l buttons inputs forms n hs
    simp only [find_clickable_elements, scan_clickable, hs, if_true]
    rfl
  · intro e inps subs anchors buttons inputs fs hs
    simp only [find_forms, find_forms.go, scan_inputs, hs, if_true]
    rfl

/-- Counterexample to C9 as stated: a stale anchor makes
`find_clickable_elements` abort with the exception instead of skipping
it, and a stale form input likewise aborts `find_forms`; the same stale
anchor is skipped by `extract_all_links`, which still returns the later
good link. -/
theorem C9_counterexample :
    find_clickable_elements
        ⟨[⟨true, true, true, none, "", none, none, "text"⟩], [], [], []⟩ 10 =
      .error "StaleElementReferenceException" ∧
    find_forms ⟨[], [], [],
        [⟨[⟨true, true, true, none, "", none, none, "text"⟩], []⟩]⟩ =
      .error "StaleElementReferenceException" ∧
    extract_all_links
        ⟨[⟨true, true, true, none, "", none, none, "text"⟩,
          ⟨false, true, true, some "http://ok", "x", none, none, "text"⟩],
         [], [], []⟩ =
      [⟨"http://ok", "x", true⟩] :=
  ⟨rfl, rfl, rfl⟩

/-- Witness for the amended C9 at concrete pages. -/
theorem C9_discovery_stale_witness :
    extract_all_links
        ⟨[⟨true, true, true, some "http://dead", "d", none, none, "text"⟩,
          ⟨false, true, true, some "http://ok", "x", none, none, "text"⟩],
         [], [], []⟩ =
      extract_all_links
        ⟨[⟨true, true, true, some "http://dead", "d", none, none, "text"⟩,
          ⟨false, true, true, some "http://ok", "x", none, none, "text"⟩].filter
            (fun e => !e.stale),
         [], [], []⟩ ∧
    find_clickable_elements
        ⟨[⟨true, true, true, none, "", none, none, "text"⟩], [], [], []⟩ 10 =
      .error "StaleElementReferenceException" :=
  ⟨C9_discovery_stale_tolerance.1
     ⟨[⟨true, true, true, some "http://dead", "d", none, none, "text"⟩,
       ⟨false, true, true, some "http://ok", "x", none, none, "text"⟩],
      [], [], []⟩,
   C9_discovery_stale_tolerance.2.1 ⟨true, true, true, none, "", none, none, "text"⟩
     [] [] [] [] 10 rfl⟩
